import Mathlib

/-!
Verification of `hetzner-failover.py`: a shallow embedding of the health
prober (`isup`), the failover-IP resolver (`get_failover_of_host`), the
switch service (`change_ip`) and the monitoring loop of `main`
(`mainStep` / `mainRun`), together with theorems settling the
specification's claims about them.
-/

/-- Outcome of one HTTP request: a response carrying a status code, or a
network error / timeout / connection failure (a raised exception in the
Python source). -/
inductive HttpOutcome where
  | ok (status : Nat)
  | err
deriving DecidableEq

/-- `isup` (src lines 104-111): one GET against the HAProxy stats page of
the given host; returns `true` when the request yields any response at
all and `false` when it raises. The single request's outcome is the
argument: the function performs exactly one request and converts every
exception into `false` instead of propagating it. -/
def isup (o : HttpOutcome) : Bool :=
  match o with
  | HttpOutcome.ok _ => true
  | HttpOutcome.err => false

/-- Observable actions of the program: log lines, the backup guard probe,
one switch request per `change_ip` call, and the assignments to the
`down` phase variable. -/
inductive Event where
  | logInfo (msg : String)
  | logWarn (msg : String)
  | logError (msg : String)
  | probeBackup
  | switch (ip : String) (target : String)
  | setDown (b : Bool)
deriving DecidableEq

/-- `change_ip` (src lines 66-80): POST the new target for one failover
IP. The result is `true` plus an info log when the response status is
exactly 200; on any other status the code raises and the handler logs an
error and returns `false`; on a request failure the same handler runs.
The `Event.switch` entry records that the repoint request was issued. -/
def change_ip (ip target : String) (o : HttpOutcome) : Bool × List Event :=
  match o with
  | HttpOutcome.ok status =>
      if status = 200 then
        (true, [Event.switch ip target,
          Event.logInfo ("Successfully changed " ++ ip ++ " to " ++ target)])
      else
        (false, [Event.switch ip target,
          Event.logError ("Could not change target of " ++ ip)])
  | HttpOutcome.err =>
      (false, [Event.switch ip target,
        Event.logError ("Could not change target of " ++ ip)])

/-- One record of the Hetzner failover listing consumed at src lines
93-101: the entry's `failover.ip` and its `failover.active_server_ip`
(which may be null). -/
structure FailoverEntry where
  ip : String
  active_server_ip : Option String
deriving DecidableEq

/-- Whether `needle` starts `hay`, on exploded characters. -/
def isPrefixChars : List Char → List Char → Bool
  | [], _ => true
  | _ :: _, [] => false
  | a :: as, b :: bs => a == b && isPrefixChars as bs

/-- Python's `in` on strings, on exploded characters: `needle` occurs as
a contiguous run somewhere inside `hay`; the empty needle always
matches. -/
def listContainsSub (needle : List Char) : List Char → Bool
  | [] => isPrefixChars needle []
  | c :: rest => isPrefixChars needle (c :: rest) || listContainsSub needle rest

/-- `host_ip in active_server_ip` (src line 99): substring containment,
not equality. -/
def containsSub (needle hay : String) : Bool :=
  listContainsSub needle.toList hay.toList

/-- `get_failover_of_host` (src lines 93-101): keep, in listing order,
the `ip` of every entry whose `active_server_ip` is non-null and
contains `host_ip` as a substring (Python `in`). -/
def get_failover_of_host (host_ip : String) : List FailoverEntry → List String
  | [] => []
  | obj :: rest =>
      match obj.active_server_ip with
      | some active =>
          if containsSub host_ip active then
            obj.ip :: get_failover_of_host host_ip rest
          else get_failover_of_host host_ip rest
      | none => get_failover_of_host host_ip rest

/-- Selection predicate stated from the spec's words, for comparison with
`get_failover_of_host`: an entry is selected when its recorded active
target is non-null and contains the given target address as a
substring. -/
def resolverSpecSelect (host_ip : String) (obj : FailoverEntry) : Bool :=
  match obj.active_server_ip with
  | some active => containsSub host_ip active
  | none => false

/-- Mutable state of the `main` loop: `retry`, `down` and `loopcount`
(src lines 162-164). -/
structure LoopState where
  retry : Nat
  down : Bool
  loopcount : Nat
deriving DecidableEq

/-- `retry = 0`, `down = False`, `loopcount = 0` (src lines 162-164). -/
def initState : LoopState := ⟨0, false, 0⟩

/-- One loop iteration's inputs: the outcome of the primary probe, the
outcome of the backup guard probe (the code consults it only when the
down transition is evaluated), and the per-IP outcomes of this cycle's
`change_ip` requests. -/
structure CycleInput where
  primary : HttpOutcome
  backup : HttpOutcome
  switchResult : String → HttpOutcome

/-- The warning logged on a failed primary probe while still counting
retries (src line 188). -/
def warnEv (retry : Nat) : Event :=
  Event.logWarn ("Could not reach host! Retry " ++ toString retry)

/-- The `for ip in failips: change_ip(ip, target)` batch (src lines
179-180 and 195-196): the events of each call in order. The boolean
results are discarded by the loop, exactly as in the source. -/
def switchBatch (target : String) (res : String → HttpOutcome) : List String → List Event
  | [] => []
  | ip :: rest => (change_ip ip target (res ip)).2 ++ switchBatch target res rest

/-- The info log emitted when `loopcount` reaches 15 successful checks
(src lines 170-172). -/
def upLog (loopcount : Nat) : List Event :=
  if loopcount = 15 then [Event.logInfo "host was up for the last 15 checks"] else []

/-- One iteration of the `while True` loop of `main` (src lines 166-203):
from the cycle's probe/switch outcomes and the current state to the next
state and the cycle's events, in source order. A `none` state models an
uncaught exception escaping the loop body: the double-failure branch
(src lines 198-200) calls `stride(...)`, a name defined nowhere in the
program, so after logging the critical message that iteration raises
`NameError` and the process dies instead of reaching `sleep(2)`. -/
def mainStep (failips : List String) (host_ip backup_ip : String)
    (inp : CycleInput) (s : LoopState) : Option LoopState × List Event :=
  if isup inp.primary then
    if s.down then
      if s.retry ≤ 2 then
        (some ⟨s.retry + 1, true, (if s.loopcount = 15 then 0 else s.loopcount) + 1⟩,
          upLog s.loopcount)
      else
        (some ⟨0, false, 1⟩,
          upLog s.loopcount ++
            Event.logInfo "host is back up. Switching Failover" ::
              (switchBatch host_ip inp.switchResult failips ++ [Event.setDown false]))
    else
      (some ⟨0, false, (if s.loopcount = 15 then 0 else s.loopcount) + 1⟩,
        upLog s.loopcount)
  else
    if s.retry ≤ 2 ∧ s.down = false then
      (some ⟨s.retry + 1, s.down, s.loopcount⟩, [warnEv s.retry])
    else if s.down = false then
      if isup inp.backup then
        (some ⟨0, true, 0⟩,
          Event.probeBackup :: Event.logError "host is down! Switching failover" ::
            Event.setDown true :: switchBatch backup_ip inp.switchResult failips)
      else
        (none, [Event.probeBackup,
          Event.logError "All hosts down! Not switching failover."])
    else
      (some s, [Event.logError "host is still down"])

/-- Iterate `mainStep` over a list of cycle inputs, concatenating the
events; a raising iteration (`none`) ends the run with the events
emitted so far. -/
def mainRun (failips : List String) (host_ip backup_ip : String) :
    List CycleInput → LoopState → Option LoopState × List Event
  | [], s => (some s, [])
  | inp :: rest, s =>
      match mainStep failips host_ip backup_ip inp s with
      | (some s2, evs) =>
          ((mainRun failips host_ip backup_ip rest s2).1,
            evs ++ (mainRun failips host_ip backup_ip rest s2).2)
      | (none, evs) => (none, evs)

/-- Recognise the switch-request events of a trace. -/
def isSwitch : Event → Bool
  | Event.switch _ _ => true
  | _ => false

/-- Recognise the phase-variable assignments of a trace. -/
def isSetDown : Event → Bool
  | Event.setDown _ => true
  | _ => false

/-- No `Event.switch` occurs after any `Event.setDown`: every switch call
of the trace is issued before each phase-variable assignment. -/
def noSwitchAfterSetDown : List Event → Bool
  | [] => true
  | Event.setDown _ :: rest =>
      rest.all (fun e => !(isSwitch e)) && noSwitchAfterSetDown rest
  | _ :: rest => noSwitchAfterSetDown rest

/-- No `Event.switch` occurs before the first `Event.setDown`. -/
def noSwitchBeforeSetDown : List Event → Bool
  | [] => true
  | Event.setDown _ :: _ => true
  | Event.switch _ _ :: _ => false
  | _ :: rest => noSwitchBeforeSetDown rest

lemma change_ip_filter (ip target : String) (o : HttpOutcome) :
    ((change_ip ip target o).2).filter isSwitch = [Event.switch ip target] := by
  cases o with
  | ok status =>
      by_cases h : status = 200 <;> simp [change_ip, h, isSwitch]
  | err => simp [change_ip, isSwitch]

lemma change_ip_no_setDown (ip target : String) (o : HttpOutcome) :
    ∀ e ∈ (change_ip ip target o).2, isSetDown e = false := by
  intro e he
  cases o with
  | ok status =>
      by_cases h : status = 200 <;>
        simp [change_ip, h] at he <;>
        rcases he with he | he <;> subst he <;> rfl
  | err =>
      simp [change_ip] at he
      rcases he with he | he <;> subst he <;> rfl

lemma switchBatch_filter (target : String) (res : String → HttpOutcome)
    (l : List String) :
    (switchBatch target res l).filter isSwitch =
      l.map (fun ip => Event.switch ip target) := by
  induction l with
  | nil => rfl
  | cons ip rest ih =>
      simp [switchBatch, List.filter_append, change_ip_filter, ih]

lemma switchBatch_no_setDown (target : String) (res : String → HttpOutcome)
    (l : List String) :
    ∀ e ∈ switchBatch target res l, isSetDown e = false := by
  induction l with
  | nil => intro e he; simp [switchBatch] at he
  | cons ip rest ih =>
      intro e he
      rw [switchBatch] at he
      rcases List.mem_append.1 he with h1 | h1
      · exact change_ip_no_setDown ip target (res ip) e h1
      · exact ih e h1

lemma upLog_filter (lc : Nat) : (upLog lc).filter isSwitch = [] := by
  unfold upLog
  split <;> rfl

lemma upLog_no_setDown (lc : Nat) : ∀ e ∈ upLog lc, isSetDown e = false := by
  intro e he
  unfold upLog at he
  split at he
  · simp at he; subst he; rfl
  · simp at he

lemma mainRun_nil (f : List String) (hip bip : String) (s : LoopState) :
    mainRun f hip bip [] s = (some s, []) := rfl

lemma mainRun_cons {f : List String} {hip bip : String} {inp : CycleInput}
    {s s2 : LoopState} {evs : List Event}
    (h : mainStep f hip bip inp s = (some s2, evs)) (rest : List CycleInput) :
    mainRun f hip bip (inp :: rest) s =
      ((mainRun f hip bip rest s2).1, evs ++ (mainRun f hip bip rest s2).2) := by
  simp [mainRun, h]

lemma mainStep_up_to_down (f : List String) (hip bip : String) (bu : HttpOutcome)
    (res : String → HttpOutcome) (s : LoopState)
    (hd : s.down = false) (hr : ¬ s.retry ≤ 2) (hb : isup bu = true) :
    mainStep f hip bip ⟨HttpOutcome.err, bu, res⟩ s =
      (some ⟨0, true, 0⟩,
        Event.probeBackup :: Event.logError "host is down! Switching failover" ::
          Event.setDown true :: switchBatch bip res f) := by
  cases bu with
  | err => simp [isup] at hb
  | ok st => simp [mainStep, isup, hd, hr]

lemma mainStep_down_to_up (f : List String) (hip bip : String) (pr bu : HttpOutcome)
    (res : String → HttpOutcome) (s : LoopState)
    (hd : s.down = true) (hr : ¬ s.retry ≤ 2) (hp : isup pr = true) :
    mainStep f hip bip ⟨pr, bu, res⟩ s =
      (some ⟨0, false, 1⟩,
        upLog s.loopcount ++
          Event.logInfo "host is back up. Switching Failover" ::
            (switchBatch hip res f ++ [Event.setDown false])) := by
  cases pr with
  | err => simp [isup] at hp
  | ok st => simp [mainStep, isup, hd, hr]

lemma mainStep_still_down (f : List String) (hip bip : String) (pr bu : HttpOutcome)
    (res : String → HttpOutcome) (s : LoopState)
    (hd : s.down = true) (hp : isup pr = false) :
    mainStep f hip bip ⟨pr, bu, res⟩ s =
      (some s, [Event.logError "host is still down"]) := by
  cases pr with
  | err => simp [mainStep, isup, hd]
  | ok st => simp [isup] at hp

lemma isPrefixChars_iff : ∀ (n h : List Char),
    isPrefixChars n h = true ↔ ∃ t, n ++ t = h := by
  intro n
  induction n with
  | nil => intro h; simp [isPrefixChars]
  | cons a as ih =>
      intro h
      cases h with
      | nil => simp [isPrefixChars]
      | cons b bs =>
          simp [isPrefixChars, Bool.and_eq_true, beq_iff_eq, ih bs,
            List.cons_append, List.cons.injEq]

lemma listContainsSub_iff : ∀ (n h : List Char),
    listContainsSub n h = true ↔ ∃ s t, s ++ n ++ t = h := by
  intro n h
  induction h with
  | nil =>
      cases n with
      | nil =>
          constructor
          · intro _; exact ⟨[], [], rfl⟩
          · intro _; rfl
      | cons a as =>
          constructor
          · intro hx; exact absurd hx (by simp [listContainsSub, isPrefixChars])
          · rintro ⟨s, t, hst⟩
            exact absurd hst (by simp)
  | cons c rest ih =>
      rw [listContainsSub]
      rw [Bool.or_eq_true, isPrefixChars_iff, ih]
      constructor
      · rintro (⟨t, ht⟩ | ⟨s, t, hst⟩)
        · exact ⟨[], t, by simpa using ht⟩
        · exact ⟨c :: s, t, by simp [hst]⟩
      · rintro ⟨s, t, hst⟩
        cases s with
        | nil => exact Or.inl ⟨t, by simpa using hst⟩
        | cons c2 s2 =>
            simp only [List.cons_append, List.cons.injEq] at hst
            exact Or.inr ⟨s2, t, hst.2⟩

lemma noSwitchAfterSetDown_append (l : List Event) (b : Bool)
    (h : ∀ e ∈ l, isSetDown e = false) :
    noSwitchAfterSetDown (l ++ [Event.setDown b]) = true := by
  induction l with
  | nil => rfl
  | cons e rest ih =>
      have he := h e (List.mem_cons_self e rest)
      have hrest : ∀ x ∈ rest, isSetDown x = false := by
        intro x hx; exact h x (List.mem_cons_of_mem e hx)
      cases e <;> simp only [List.cons_append, noSwitchAfterSetDown] <;>
        first
          | exact ih hrest
          | simp [isSetDown] at he

lemma mainStep_retry_le (f : List String) (hip bip : String) (inp : CycleInput)
    (s : LoopState) (hs : s.retry ≤ 3) :
    ∀ s2, (mainStep f hip bip inp s).1 = some s2 → s2.retry ≤ 3 := by
  intro s2 h
  unfold mainStep at h
  split_ifs at h <;> simp at h <;> (try subst h) <;> (try dsimp only) <;> omega

lemma mainRun_retry_le (f : List String) (hip bip : String) :
    ∀ (inputs : List CycleInput) (s : LoopState), s.retry ≤ 3 →
      ∀ s2, (mainRun f hip bip inputs s).1 = some s2 → s2.retry ≤ 3 := by
  intro inputs
  induction inputs with
  | nil =>
      intro s hs s2 h
      simp [mainRun] at h
      subst h
      omega
  | cons inp rest ih =>
      intro s hs s2 h
      rcases hstep : mainStep f hip bip inp s with ⟨os, evs⟩
      cases os with
      | none => rw [mainRun] at h; rw [hstep] at h; simp at h
      | some s3 =>
          rw [mainRun] at h; rw [hstep] at h
          simp only [] at h
          exact ih s3 (mainStep_retry_le f hip bip inp s hs s3 (by rw [hstep])) s2 h

/-- Claim C6: the health prober `isup` returns a boolean, treats any
network error, timeout or connection failure as `false` (unreachable) and
any response at all as `true`. It is a total function of the outcome of
the single request it performs, so it never raises to its caller and
performs no retries. -/
theorem C6_prober_total :
    (∀ o, isup o = false ↔ o = HttpOutcome.err) ∧
    (∀ st, isup (HttpOutcome.ok st) = true) := by
  constructor
  · intro o; cases o <;> simp [isup]
  · intro st; rfl

/-- Claim C7 counterexample: status 204 is an explicit 2xx success
status, yet `change_ip` reports failure, so "returns true iff the
provider responds with a 2xx status" is false at this input. -/
theorem C7_two_xx_not_success :
    (change_ip "203.0.113.10" "10.0.0.2" (HttpOutcome.ok 204)).1 = false ∧
      200 ≤ 204 ∧ 204 < 300 :=
  ⟨rfl, by omega, by omega⟩

/-- Claim C7 (amended): `change_ip` returns `true` iff the provider
responds with status exactly 200; on any other status or on a request
failure it logs an error and returns `false`, and being a total function
of the request's outcome it never raises to the caller. -/
theorem C7_switch_true_iff_200 :
    ∀ ip target o,
      ((change_ip ip target o).1 = true ↔ o = HttpOutcome.ok 200) ∧
      ((change_ip ip target o).1 = false →
        Event.logError ("Could not change target of " ++ ip) ∈
          (change_ip ip target o).2) := by
  intro ip target o
  cases o with
  | ok st => by_cases h : st = 200 <;> simp [change_ip, h]
  | err => simp [change_ip]

theorem C7_switch_true_iff_200_witness :
    Event.logError ("Could not change target of " ++ "203.0.113.10") ∈
      (change_ip "203.0.113.10" "10.0.0.2" HttpOutcome.err).2 :=
  (C7_switch_true_iff_200 "203.0.113.10" "10.0.0.2" HttpOutcome.err).2 rfl

/-- Claim C8: the resolver returns exactly the managed IPs (in listing
order) whose recorded active target is non-null and contains the given
address as a substring; entries with a null active target are never
selected; the containment test is genuine substring occurrence and not
strict equality — for instance 10.0.0.1 matches inside the different
address 10.0.0.11. -/
theorem C8_resolver_substring :
    (∀ host_ip data, get_failover_of_host host_ip data =
        (data.filter (resolverSpecSelect host_ip)).map FailoverEntry.ip) ∧
    (∀ needle hay, containsSub needle hay = true ↔
        ∃ pre post, pre ++ needle.toList ++ post = hay.toList) ∧
    containsSub "10.0.0.1" "10.0.0.11" = true ∧
    ("10.0.0.1" : String) ≠ "10.0.0.11" := by
  refine ⟨?_, ?_, by decide, by decide⟩
  · intro host_ip data
    induction data with
    | nil => rfl
    | cons obj rest ih =>
        rcases hobj : obj.active_server_ip with _ | a
        · simp [get_failover_of_host, resolverSpecSelect, hobj, ih]
        · by_cases hc : containsSub host_ip a <;>
            simp [get_failover_of_host, resolverSpecSelect, hobj, hc, ih]
  · intro needle hay
    exact listContainsSub_iff needle.toList hay.toList

/-- Claim C3 (code bug): when the down-threshold is reached while UP and
the backup probe of the same cycle also fails, the code logs the critical
"All hosts down" message and then calls `stride`, a name that no import
or definition of the program provides, so the iteration raises
`NameError` (modelled by the `none` state) and the loop never reaches the
next cycle: a run over two such cycles ends after the first, with the
phase still UP, the retry counter untouched and no switch call issued. -/
theorem C3_double_failure_crash :
    mainStep ["203.0.113.10"] "10.0.0.1" "10.0.0.2"
        ⟨HttpOutcome.err, HttpOutcome.err, fun _ => HttpOutcome.err⟩ ⟨3, false, 0⟩ =
      (none, [Event.probeBackup,
        Event.logError "All hosts down! Not switching failover."]) ∧
    mainRun ["203.0.113.10"] "10.0.0.1" "10.0.0.2"
        (List.replicate 2 ⟨HttpOutcome.err, HttpOutcome.err, fun _ => HttpOutcome.err⟩)
        ⟨3, false, 0⟩ =
      (none, [Event.probeBackup,
        Event.logError "All hosts down! Not switching failover."]) :=
  ⟨rfl, rfl⟩

/-- Claim C4: in every cycle where the phase is already DOWN and the
primary probe fails, the step issues no switch call and returns the state
unchanged, emitting only the status log; moreover any cycle that issues a
switch call flips the phase (and resets the retry counter), so switch
calls never occur outside the two phase-transition cycles. -/
theorem C4_still_down_no_switch :
    (∀ f hip bip pr bu res (s : LoopState), s.down = true → isup pr = false →
        mainStep f hip bip ⟨pr, bu, res⟩ s =
          (some s, [Event.logError "host is still down"])) ∧
    (∀ f hip bip (inp : CycleInput) (s s2 : LoopState),
        (mainStep f hip bip inp s).1 = some s2 →
        (mainStep f hip bip inp s).2.filter isSwitch ≠ [] →
        s2.down = !s.down ∧ s2.retry = 0) := by
  constructor
  · intro f hip bip pr bu res s hd hp
    exact mainStep_still_down f hip bip pr bu res s hd hp
  · intro f hip bip inp s s2 h1 h2
    unfold mainStep at h1 h2
    split_ifs at h1 h2 <;>
      first
        | (simp [upLog_filter, warnEv, isSwitch] at h2; done)
        | (simp at h1; subst h1; simp_all)

theorem C4_still_down_no_switch_witness :
    (mainStep ["203.0.113.10"] "10.0.0.1" "10.0.0.2"
        ⟨HttpOutcome.err, HttpOutcome.err, fun _ => HttpOutcome.err⟩ ⟨0, true, 5⟩ =
      (some ⟨0, true, 5⟩, [Event.logError "host is still down"])) ∧
    ((⟨0, true, 0⟩ : LoopState).down = !(⟨3, false, 0⟩ : LoopState).down ∧
      (⟨0, true, 0⟩ : LoopState).retry = 0) :=
  ⟨(C4_still_down_no_switch).1 ["203.0.113.10"] "10.0.0.1" "10.0.0.2"
      HttpOutcome.err HttpOutcome.err (fun _ => HttpOutcome.err) ⟨0, true, 5⟩ rfl rfl,
   (C4_still_down_no_switch).2 ["203.0.113.10"] "10.0.0.1" "10.0.0.2"
      ⟨HttpOutcome.err, HttpOutcome.ok 200, fun _ => HttpOutcome.ok 200⟩
      ⟨3, false, 0⟩ ⟨0, true, 0⟩ rfl (by decide)⟩

/-- Claim C5: switch outcomes never influence the controller state, so a
failing switch call is not retried within the cycle and never rolls back
a transition; and in both transition cycles the batch issues exactly one
switch call per managed IP, in listing order, whatever each call
returns — the phase commits (UP→DOWN to `⟨0, true, 0⟩`, DOWN→UP to
`⟨0, false, 1⟩`) regardless of how many per-IP calls fail. -/
theorem C5_batch_commit_independent :
    (∀ f hip bip pr bu res res2 (s : LoopState),
        (mainStep f hip bip ⟨pr, bu, res⟩ s).1 =
          (mainStep f hip bip ⟨pr, bu, res2⟩ s).1) ∧
    (∀ f hip bip bu res (s : LoopState), s.down = false → ¬ s.retry ≤ 2 →
        isup bu = true →
        (mainStep f hip bip ⟨HttpOutcome.err, bu, res⟩ s).1 = some ⟨0, true, 0⟩ ∧
        (mainStep f hip bip ⟨HttpOutcome.err, bu, res⟩ s).2.filter isSwitch =
          f.map (fun ip => Event.switch ip bip)) ∧
    (∀ f hip bip pr bu res (s : LoopState), s.down = true → ¬ s.retry ≤ 2 →
        isup pr = true →
        (mainStep f hip bip ⟨pr, bu, res⟩ s).1 = some ⟨0, false, 1⟩ ∧
        (mainStep f hip bip ⟨pr, bu, res⟩ s).2.filter isSwitch =
          f.map (fun ip => Event.switch ip hip)) := by
  refine ⟨?_, ?_, ?_⟩
  · intro f hip bip pr bu res res2 s
    unfold mainStep
    dsimp only
    split_ifs <;> rfl
  · intro f hip bip bu res s hd hr hb
    rw [mainStep_up_to_down f hip bip bu res s hd hr hb]
    refine ⟨rfl, ?_⟩
    simp [isSwitch, switchBatch_filter]
  · intro f hip bip pr bu res s hd hr hp
    rw [mainStep_down_to_up f hip bip pr bu res s hd hr hp]
    refine ⟨rfl, ?_⟩
    simp [List.filter_append, upLog_filter, isSwitch, switchBatch_filter]

theorem C5_batch_commit_independent_witness :
    ((mainStep ["203.0.113.10", "203.0.113.11"] "10.0.0.1" "10.0.0.2"
        ⟨HttpOutcome.err, HttpOutcome.ok 200, fun _ => HttpOutcome.err⟩
        ⟨3, false, 0⟩).1 = some ⟨0, true, 0⟩ ∧
      (mainStep ["203.0.113.10", "203.0.113.11"] "10.0.0.1" "10.0.0.2"
        ⟨HttpOutcome.err, HttpOutcome.ok 200, fun _ => HttpOutcome.err⟩
        ⟨3, false, 0⟩).2.filter isSwitch =
        ["203.0.113.10", "203.0.113.11"].map
          (fun ip => Event.switch ip "10.0.0.2")) ∧
    ((mainStep ["203.0.113.10", "203.0.113.11"] "10.0.0.1" "10.0.0.2"
        ⟨HttpOutcome.ok 200, HttpOutcome.err, fun _ => HttpOutcome.err⟩
        ⟨3, true, 3⟩).1 = some ⟨0, false, 1⟩ ∧
      (mainStep ["203.0.113.10", "203.0.113.11"] "10.0.0.1" "10.0.0.2"
        ⟨HttpOutcome.ok 200, HttpOutcome.err, fun _ => HttpOutcome.err⟩
        ⟨3, true, 3⟩).2.filter isSwitch =
        ["203.0.113.10", "203.0.113.11"].map
          (fun ip => Event.switch ip "10.0.0.1")) :=
  ⟨(C5_batch_commit_independent).2.1 ["203.0.113.10", "203.0.113.11"]
      "10.0.0.1" "10.0.0.2" (HttpOutcome.ok 200) (fun _ => HttpOutcome.err)
      ⟨3, false, 0⟩ rfl (by decide) rfl,
   (C5_batch_commit_independent).2.2 ["203.0.113.10", "203.0.113.11"]
      "10.0.0.1" "10.0.0.2" (HttpOutcome.ok 200) HttpOutcome.err
      (fun _ => HttpOutcome.err) ⟨3, true, 3⟩ rfl (by decide) rfl⟩

/-- Claim C9 counterexample: in a concrete UP→DOWN transition cycle the
trace contains a switch call after the `down = True` assignment (the code
sets the phase variable at src line 193 before issuing the batch at src
lines 195-196), so "all switch calls are issued before the phase variable
is changed" fails there. -/
theorem C9_switch_after_phase_set :
    noSwitchAfterSetDown
        (mainStep ["203.0.113.10"] "10.0.0.1" "10.0.0.2"
          ⟨HttpOutcome.err, HttpOutcome.ok 200, fun _ => HttpOutcome.ok 200⟩
          ⟨3, false, 0⟩).2 = false ∧
    Event.setDown true ∈
      (mainStep ["203.0.113.10"] "10.0.0.1" "10.0.0.2"
          ⟨HttpOutcome.err, HttpOutcome.ok 200, fun _ => HttpOutcome.ok 200⟩
          ⟨3, false, 0⟩).2 ∧
    (mainStep ["203.0.113.10"] "10.0.0.1" "10.0.0.2"
          ⟨HttpOutcome.err, HttpOutcome.ok 200, fun _ => HttpOutcome.ok 200⟩
          ⟨3, false, 0⟩).2.filter isSwitch ≠ [] := by
  refine ⟨rfl, by decide, by decide⟩

/-- Claim C9 (amended): in every DOWN→UP transition all switch calls of
the batch are issued before the phase variable is set back to UP, but in
every UP→DOWN transition the phase variable is set to DOWN before the
batch is issued (no switch call precedes the assignment). -/
theorem C9_batch_phase_order :
    (∀ f hip bip pr bu res (s : LoopState), s.down = true → ¬ s.retry ≤ 2 →
        isup pr = true →
        noSwitchAfterSetDown (mainStep f hip bip ⟨pr, bu, res⟩ s).2 = true ∧
        Event.setDown false ∈ (mainStep f hip bip ⟨pr, bu, res⟩ s).2) ∧
    (∀ f hip bip bu res (s : LoopState), s.down = false → ¬ s.retry ≤ 2 →
        isup bu = true →
        noSwitchBeforeSetDown
          (mainStep f hip bip ⟨HttpOutcome.err, bu, res⟩ s).2 = true ∧
        Event.setDown true ∈
          (mainStep f hip bip ⟨HttpOutcome.err, bu, res⟩ s).2) := by
  constructor
  · intro f hip bip pr bu res s hd hr hp
    rw [mainStep_down_to_up f hip bip pr bu res s hd hr hp]
    constructor
    · have hl : ∀ e ∈ upLog s.loopcount ++
          Event.logInfo "host is back up. Switching Failover" ::
            switchBatch hip res f, isSetDown e = false := by
        intro e he
        rcases List.mem_append.1 he with h1 | h1
        · exact upLog_no_setDown s.loopcount e h1
        · rcases List.mem_cons.1 h1 with h2 | h2
          · subst h2; rfl
          · exact switchBatch_no_setDown hip res f e h2
      have hx := noSwitchAfterSetDown_append _ false hl
      simpa [List.append_assoc, List.cons_append] using hx
    · simp
  · intro f hip bip bu res s hd hr hb
    rw [mainStep_up_to_down f hip bip bu res s hd hr hb]
    exact ⟨rfl, by simp⟩

theorem C9_batch_phase_order_witness :
    (noSwitchAfterSetDown
        (mainStep ["203.0.113.10"] "10.0.0.1" "10.0.0.2"
          ⟨HttpOutcome.ok 200, HttpOutcome.err, fun _ => HttpOutcome.ok 200⟩
          ⟨3, true, 3⟩).2 = true ∧
      Event.setDown false ∈
        (mainStep ["203.0.113.10"] "10.0.0.1" "10.0.0.2"
          ⟨HttpOutcome.ok 200, HttpOutcome.err, fun _ => HttpOutcome.ok 200⟩
          ⟨3, true, 3⟩).2) ∧
    (noSwitchBeforeSetDown
        (mainStep ["203.0.113.10"] "10.0.0.1" "10.0.0.2"
          ⟨HttpOutcome.err, HttpOutcome.ok 200, fun _ => HttpOutcome.ok 200⟩
          ⟨3, false, 0⟩).2 = true ∧
      Event.setDown true ∈
        (mainStep ["203.0.113.10"] "10.0.0.1" "10.0.0.2"
          ⟨HttpOutcome.err, HttpOutcome.ok 200, fun _ => HttpOutcome.ok 200⟩
          ⟨3, false, 0⟩).2) :=
  ⟨(C9_batch_phase_order).1 ["203.0.113.10"] "10.0.0.1" "10.0.0.2"
      (HttpOutcome.ok 200) HttpOutcome.err (fun _ => HttpOutcome.ok 200)
      ⟨3, true, 3⟩ rfl (by decide) rfl,
   (C9_batch_phase_order).2 ["203.0.113.10"] "10.0.0.1" "10.0.0.2"
      (HttpOutcome.ok 200) (fun _ => HttpOutcome.ok 200)
      ⟨3, false, 0⟩ rfl (by decide) rfl⟩

/-- Claim C10: every state reachable by the loop from the initial state
(retry = 0, down = False) keeps the retry counter within 0..3; a step
increments the counter only from a value ≤ 2, and any step that changes
the phase resets the counter to 0. -/
theorem C10_retry_bounded :
    (∀ f hip bip (inputs : List CycleInput) (s2 : LoopState),
        (mainRun f hip bip inputs initState).1 = some s2 → s2.retry ≤ 3) ∧
    (∀ f hip bip (inp : CycleInput) (s s2 : LoopState),
        (mainStep f hip bip inp s).1 = some s2 →
        s2.retry = s.retry + 1 → s.retry ≤ 2) ∧
    (∀ f hip bip (inp : CycleInput) (s s2 : LoopState),
        (mainStep f hip bip inp s).1 = some s2 →
        s2.down ≠ s.down → s2.retry = 0) := by
  refine ⟨?_, ?_, ?_⟩
  · intro f hip bip inputs s2 h
    exact mainRun_retry_le f hip bip inputs initState (by simp [initState]) s2 h
  · intro f hip bip inp s s2 h1 h2
    unfold mainStep at h1
    split_ifs at h1 <;> simp at h1 <;> (try subst h1) <;> (try dsimp only at h2) <;> omega
  · intro f hip bip inp s s2 h1 h2
    unfold mainStep at h1
    split_ifs at h1 <;> simp at h1 <;> (try subst h1) <;> simp_all

theorem C10_retry_bounded_witness :
    ((⟨3, false, 0⟩ : LoopState).retry ≤ 3 ∧
      (⟨0, false, 0⟩ : LoopState).retry ≤ 2 ∧
      (⟨0, true, 0⟩ : LoopState).retry = 0) :=
  ⟨(C10_retry_bounded).1 ["203.0.113.10"] "10.0.0.1" "10.0.0.2"
      (List.replicate 3 ⟨HttpOutcome.err, HttpOutcome.err, fun _ => HttpOutcome.err⟩)
      ⟨3, false, 0⟩ rfl,
   (C10_retry_bounded).2.1 ["203.0.113.10"] "10.0.0.1" "10.0.0.2"
      ⟨HttpOutcome.err, HttpOutcome.err, fun _ => HttpOutcome.err⟩
      ⟨0, false, 0⟩ ⟨1, false, 0⟩ rfl rfl,
   (C10_retry_bounded).2.2 ["203.0.113.10"] "10.0.0.1" "10.0.0.2"
      ⟨HttpOutcome.err, HttpOutcome.ok 200, fun _ => HttpOutcome.ok 200⟩
      ⟨3, false, 0⟩ ⟨0, true, 0⟩ rfl (by decide)⟩

lemma mainStep_down_counting (f : List String) (hip bip : String) (pr bu : HttpOutcome)
    (res : String → HttpOutcome) (s : LoopState)
    (hd : s.down = true) (hr : s.retry ≤ 2) (hp : isup pr = true) :
    mainStep f hip bip ⟨pr, bu, res⟩ s =
      (some ⟨s.retry + 1, true, (if s.loopcount = 15 then 0 else s.loopcount) + 1⟩,
        upLog s.loopcount) := by
  cases pr with
  | err => simp [isup] at hp
  | ok st => simp [mainStep, isup, hd, hr]

/-- Claim C1 counterexample: starting UP, after the 3rd consecutive
failed primary probe — with the backup healthy and every switch request
set to succeed — the phase is still UP (`retry` = 3) and no switch
request has been issued, so the UP→DOWN switch does not happen on the
3rd consecutive failure. -/
theorem C1_no_switch_on_third_failure :
    (mainRun ["203.0.113.10"] "10.0.0.1" "10.0.0.2"
        (List.replicate 3 ⟨HttpOutcome.err, HttpOutcome.ok 200,
          fun _ => HttpOutcome.ok 200⟩) initState).1 = some ⟨3, false, 0⟩ ∧
    ((mainRun ["203.0.113.10"] "10.0.0.1" "10.0.0.2"
        (List.replicate 3 ⟨HttpOutcome.err, HttpOutcome.ok 200,
          fun _ => HttpOutcome.ok 200⟩) initState).2.filter isSwitch) = [] :=
  ⟨rfl, rfl⟩

/-- Claim C1 (amended): from the initial UP state, while the primary has
failed at most 3 consecutive times the phase remains UP and no switch
call is issued (the code performs three warn-only retries); exactly on
the 4th consecutive failed primary probe, if the backup probe taken in
that same cycle succeeds, the controller issues exactly one switch call
per managed IP with the backup address and the phase becomes DOWN. -/
theorem C1_switch_on_fourth_failure :
    ∀ (f : List String) (hip bip : String) (bu : HttpOutcome)
      (res : String → HttpOutcome),
      (∀ k, k ≤ 3 →
        (mainRun f hip bip (List.replicate k ⟨HttpOutcome.err, bu, res⟩)
            initState).1 = some ⟨k, false, 0⟩ ∧
        ((mainRun f hip bip (List.replicate k ⟨HttpOutcome.err, bu, res⟩)
            initState).2.filter isSwitch) = []) ∧
      (isup bu = true →
        (mainRun f hip bip (List.replicate 4 ⟨HttpOutcome.err, bu, res⟩)
            initState).1 = some ⟨0, true, 0⟩ ∧
        ((mainRun f hip bip (List.replicate 4 ⟨HttpOutcome.err, bu, res⟩)
            initState).2.filter isSwitch) =
          f.map (fun ip => Event.switch ip bip)) := by
  intro f hip bip bu res
  constructor
  · intro k hk
    interval_cases k <;> exact ⟨rfl, rfl⟩
  · intro hb
    have h1 : mainStep f hip bip ⟨HttpOutcome.err, bu, res⟩ initState =
        (some ⟨1, false, 0⟩, [warnEv 0]) := rfl
    have h2 : mainStep f hip bip ⟨HttpOutcome.err, bu, res⟩ ⟨1, false, 0⟩ =
        (some ⟨2, false, 0⟩, [warnEv 1]) := rfl
    have h3 : mainStep f hip bip ⟨HttpOutcome.err, bu, res⟩ ⟨2, false, 0⟩ =
        (some ⟨3, false, 0⟩, [warnEv 2]) := rfl
    have h4 := mainStep_up_to_down f hip bip bu res ⟨3, false, 0⟩ rfl (by decide) hb
    have e4 : List.replicate 4 (⟨HttpOutcome.err, bu, res⟩ : CycleInput) =
        ⟨HttpOutcome.err, bu, res⟩ :: ⟨HttpOutcome.err, bu, res⟩ ::
          ⟨HttpOutcome.err, bu, res⟩ :: [⟨HttpOutcome.err, bu, res⟩] := rfl
    rw [e4, mainRun_cons h1, mainRun_cons h2, mainRun_cons h3, mainRun_cons h4,
      mainRun_nil]
    refine ⟨rfl, ?_⟩
    simp [List.filter_append, warnEv, isSwitch, switchBatch_filter]

theorem C1_switch_on_fourth_failure_witness :
    ((mainRun ["203.0.113.10", "203.0.113.11"] "10.0.0.1" "10.0.0.2"
        (List.replicate 3 ⟨HttpOutcome.err, HttpOutcome.ok 200,
          fun _ => HttpOutcome.ok 200⟩) initState).1 = some ⟨3, false, 0⟩ ∧
      ((mainRun ["203.0.113.10", "203.0.113.11"] "10.0.0.1" "10.0.0.2"
        (List.replicate 3 ⟨HttpOutcome.err, HttpOutcome.ok 200,
          fun _ => HttpOutcome.ok 200⟩) initState).2.filter isSwitch) = []) ∧
    ((mainRun ["203.0.113.10", "203.0.113.11"] "10.0.0.1" "10.0.0.2"
        (List.replicate 4 ⟨HttpOutcome.err, HttpOutcome.ok 200,
          fun _ => HttpOutcome.ok 200⟩) initState).1 = some ⟨0, true, 0⟩ ∧
      ((mainRun ["203.0.113.10", "203.0.113.11"] "10.0.0.1" "10.0.0.2"
        (List.replicate 4 ⟨HttpOutcome.err, HttpOutcome.ok 200,
          fun _ => HttpOutcome.ok 200⟩) initState).2.filter isSwitch) =
        ["203.0.113.10", "203.0.113.11"].map
          (fun ip => Event.switch ip "10.0.0.2")) :=
  ⟨(C1_switch_on_fourth_failure ["203.0.113.10", "203.0.113.11"] "10.0.0.1"
      "10.0.0.2" (HttpOutcome.ok 200) (fun _ => HttpOutcome.ok 200)).1 3
      (by omega),
   (C1_switch_on_fourth_failure ["203.0.113.10", "203.0.113.11"] "10.0.0.1"
      "10.0.0.2" (HttpOutcome.ok 200) (fun _ => HttpOutcome.ok 200)).2 rfl⟩

/-- Claim C2 counterexample: from the state the UP→DOWN transition
leaves behind (`retry` = 0, DOWN), after the 3rd consecutive successful
primary probe the phase is still DOWN (`retry` = 3) and no switch
request has been issued, so the DOWN→UP switch does not happen on the
3rd consecutive success. -/
theorem C2_no_switch_on_third_success :
    (mainRun ["203.0.113.10"] "10.0.0.1" "10.0.0.2"
        (List.replicate 3 ⟨HttpOutcome.ok 200, HttpOutcome.ok 200,
          fun _ => HttpOutcome.ok 200⟩) ⟨0, true, 0⟩).1 = some ⟨3, true, 3⟩ ∧
    ((mainRun ["203.0.113.10"] "10.0.0.1" "10.0.0.2"
        (List.replicate 3 ⟨HttpOutcome.ok 200, HttpOutcome.ok 200,
          fun _ => HttpOutcome.ok 200⟩) ⟨0, true, 0⟩).2.filter isSwitch) = [] :=
  ⟨rfl, rfl⟩

/-- Claim C2 (amended): starting from the state the UP→DOWN transition
leaves behind (`retry` = 0, phase DOWN), the first three consecutive
successful primary probes only count (the phase stays DOWN and no switch
call is issued); exactly on the 4th consecutive successful primary probe
the controller issues exactly one switch call per managed IP with the
primary address, the phase returns to UP and the retry counter is reset
to 0 (the stability counter holds 1, counting the current successful
check). -/
theorem C2_switch_on_fourth_success :
    ∀ (f : List String) (hip bip : String) (pr bu : HttpOutcome)
      (res : String → HttpOutcome), isup pr = true →
      (∀ k, k ≤ 3 →
        (mainRun f hip bip (List.replicate k ⟨pr, bu, res⟩) ⟨0, true, 0⟩).1 =
          some ⟨k, true, k⟩ ∧
        ((mainRun f hip bip (List.replicate k ⟨pr, bu, res⟩)
            ⟨0, true, 0⟩).2.filter isSwitch) = []) ∧
      ((mainRun f hip bip (List.replicate 4 ⟨pr, bu, res⟩) ⟨0, true, 0⟩).1 =
          some ⟨0, false, 1⟩ ∧
        ((mainRun f hip bip (List.replicate 4 ⟨pr, bu, res⟩)
            ⟨0, true, 0⟩).2.filter isSwitch) =
          f.map (fun ip => Event.switch ip hip)) := by
  intro f hip bip pr bu res hp
  have h1 : mainStep f hip bip ⟨pr, bu, res⟩ ⟨0, true, 0⟩ =
      (some ⟨1, true, 1⟩, []) := by
    rw [mainStep_down_counting f hip bip pr bu res ⟨0, true, 0⟩ rfl (by decide) hp]
    rfl
  have h2 : mainStep f hip bip ⟨pr, bu, res⟩ ⟨1, true, 1⟩ =
      (some ⟨2, true, 2⟩, []) := by
    rw [mainStep_down_counting f hip bip pr bu res ⟨1, true, 1⟩ rfl (by decide) hp]
    rfl
  have h3 : mainStep f hip bip ⟨pr, bu, res⟩ ⟨2, true, 2⟩ =
      (some ⟨3, true, 3⟩, []) := by
    rw [mainStep_down_counting f hip bip pr bu res ⟨2, true, 2⟩ rfl (by decide) hp]
    rfl
  have h4 : mainStep f hip bip ⟨pr, bu, res⟩ ⟨3, true, 3⟩ =
      (some ⟨0, false, 1⟩,
        Event.logInfo "host is back up. Switching Failover" ::
          (switchBatch hip res f ++ [Event.setDown false])) := by
    rw [mainStep_down_to_up f hip bip pr bu res ⟨3, true, 3⟩ rfl (by decide) hp]
    rfl
  constructor
  · intro k hk
    interval_cases k
    · exact ⟨rfl, rfl⟩
    · rw [show List.replicate 1 (⟨pr, bu, res⟩ : CycleInput) =
          [⟨pr, bu, res⟩] from rfl, mainRun_cons h1, mainRun_nil]
      exact ⟨rfl, rfl⟩
    · rw [show List.replicate 2 (⟨pr, bu, res⟩ : CycleInput) =
          ⟨pr, bu, res⟩ :: [⟨pr, bu, res⟩] from rfl,
        mainRun_cons h1, mainRun_cons h2, mainRun_nil]
      exact ⟨rfl, rfl⟩
    · rw [show List.replicate 3 (⟨pr, bu, res⟩ : CycleInput) =
          ⟨pr, bu, res⟩ :: ⟨pr, bu, res⟩ :: [⟨pr, bu, res⟩] from rfl,
        mainRun_cons h1, mainRun_cons h2, mainRun_cons h3, mainRun_nil]
      exact ⟨rfl, rfl⟩
  · rw [show List.replicate 4 (⟨pr, bu, res⟩ : CycleInput) =
        ⟨pr, bu, res⟩ :: ⟨pr, bu, res⟩ :: ⟨pr, bu, res⟩ :: [⟨pr, bu, res⟩] from rfl,
      mainRun_cons h1, mainRun_cons h2, mainRun_cons h3, mainRun_cons h4,
      mainRun_nil]
    refine ⟨rfl, ?_⟩
    simp [List.filter_append, isSwitch, switchBatch_filter]

theorem C2_switch_on_fourth_success_witness :
    ((mainRun ["203.0.113.10", "203.0.113.11"] "10.0.0.1" "10.0.0.2"
        (List.replicate 3 ⟨HttpOutcome.ok 200, HttpOutcome.err,
          fun _ => HttpOutcome.ok 200⟩) ⟨0, true, 0⟩).1 = some ⟨3, true, 3⟩ ∧
      ((mainRun ["203.0.113.10", "203.0.113.11"] "10.0.0.1" "10.0.0.2"
        (List.replicate 3 ⟨HttpOutcome.ok 200, HttpOutcome.err,
          fun _ => HttpOutcome.ok 200⟩) ⟨0, true, 0⟩).2.filter isSwitch) = []) ∧
    ((mainRun ["203.0.113.10", "203.0.113.11"] "10.0.0.1" "10.0.0.2"
        (List.replicate 4 ⟨HttpOutcome.ok 200, HttpOutcome.err,
          fun _ => HttpOutcome.ok 200⟩) ⟨0, true, 0⟩).1 = some ⟨0, false, 1⟩ ∧
      ((mainRun ["203.0.113.10", "203.0.113.11"] "10.0.0.1" "10.0.0.2"
        (List.replicate 4 ⟨HttpOutcome.ok 200, HttpOutcome.err,
          fun _ => HttpOutcome.ok 200⟩) ⟨0, true, 0⟩).2.filter isSwitch) =
        ["203.0.113.10", "203.0.113.11"].map
          (fun ip => Event.switch ip "10.0.0.1")) :=
  ⟨(C2_switch_on_fourth_success ["203.0.113.10", "203.0.113.11"] "10.0.0.1"
      "10.0.0.2" (HttpOutcome.ok 200) HttpOutcome.err
      (fun _ => HttpOutcome.ok 200) rfl).1 3 (by omega),
   (C2_switch_on_fourth_success ["203.0.113.10", "203.0.113.11"] "10.0.0.1"
      "10.0.0.2" (HttpOutcome.ok 200) HttpOutcome.err
      (fun _ => HttpOutcome.ok 200) rfl).2⟩
